import Mathlib

/-!
Verification of the storage layer of `golang-simple-notes`.

The Go source is shallowly embedded: each storage adapter becomes a pure
Lean function over an explicit state, Go's `error` return becomes
`Except GoError`, and the two remote document stores (CouchDB via kivik,
MongoDB via the official driver) are modelled by executable server-state
transition functions reflecting the responses the adapters dispatch on.
Timestamps (`time.Time`) are modelled as integers; only their ordering
matters to the properties considered here.
-/

set_option autoImplicit false

/-- Embedding of `model.Note` (model/note.go).  `rev` is the CouchDB
revision token field `Rev`; `createdAt`/`updatedAt` model `time.Time`
values as integers. -/
structure Note where
  id : String
  rev : String
  title : String
  content : String
  createdAt : Int
  updatedAt : Int
deriving DecidableEq, Repr

/-- Embedding of Go `error` values as produced by the storage package:
`noteNotFound` is the shared sentinel `storage.ErrNoteNotFound`; `errorf m`
is an error built with `fmt.Errorf` whose final message is `m` (such errors
are distinct from every sentinel, which is what callers' `==` checks see). -/
inductive GoError where
  | noteNotFound
  | errorf (msg : String)
deriving DecidableEq, Repr

/-- Lookup in an association list, modelling Go's `m[k]` read
(first binding wins; adapters keep keys unique). -/
def assocGet {α : Type} : List (String × α) → String → Option α
  | [], _ => none
  | (k', v') :: rest, k => if k' = k then some v' else assocGet rest k

/-- Store into an association list, modelling Go's `m[k] = v`
(replaces the existing binding, otherwise appends). -/
def assocPut {α : Type} : List (String × α) → String → α → List (String × α)
  | [], k, v => [(k, v)]
  | (k', v') :: rest, k, v =>
      if k' = k then (k, v) :: rest else (k', v') :: assocPut rest k v

/-- Remove from an association list, modelling Go's `delete(m, k)`. -/
def assocDel {α : Type} : List (String × α) → String → List (String × α)
  | [], _ => []
  | (k', v') :: rest, k => if k' = k then rest else (k', v') :: assocDel rest k

/-- Embedding of `storage.InMemoryStorage` (storage/storage.go): a map from
id to note.  The `sync.RWMutex` only serialises accesses and carries no
sequential meaning, so it is not part of the state. -/
structure InMemoryStorage where
  notes : List (String × Note)
deriving Repr

/-- `storage.NewInMemoryStorage`. -/
def InMemoryStorage.emptyStore : InMemoryStorage := ⟨[]⟩

/-- `InMemoryStorage.Create` (storage/storage.go:51): unconditional
`s.notes[note.ID] = note`, always returns nil. -/
def InMemoryStorage.Create (s : InMemoryStorage) (note : Note) :
    Except GoError InMemoryStorage :=
  .ok ⟨assocPut s.notes note.id note⟩

/-- `InMemoryStorage.Get` (storage/storage.go:60). -/
def InMemoryStorage.Get (s : InMemoryStorage) (id : String) :
    Except GoError Note :=
  match assocGet s.notes id with
  | none => .error .noteNotFound
  | some n => .ok n

/-- `InMemoryStorage.GetAll` (storage/storage.go:72): all stored notes,
never an error. -/
def InMemoryStorage.GetAll (s : InMemoryStorage) :
    Except GoError (List Note) :=
  .ok (s.notes.map Prod.snd)

/-- `InMemoryStorage.Update` (storage/storage.go:84): existence check, then
`s.notes[note.ID] = note` storing the supplied note verbatim. -/
def InMemoryStorage.Update (s : InMemoryStorage) (note : Note) :
    Except GoError InMemoryStorage :=
  match assocGet s.notes note.id with
  | none => .error .noteNotFound
  | some _ => .ok ⟨assocPut s.notes note.id note⟩

/-- `InMemoryStorage.Delete` (storage/storage.go:97). -/
def InMemoryStorage.Delete (s : InMemoryStorage) (id : String) :
    Except GoError InMemoryStorage :=
  match assocGet s.notes id with
  | none => .error .noteNotFound
  | some _ => .ok ⟨assocDel s.notes id⟩

/-- `InMemoryStorage.Close` (storage/storage.go:110): nothing to close,
always nil. -/
def InMemoryStorage.Close (_s : InMemoryStorage) : Except GoError Unit :=
  .ok ()

theorem assocGet_assocPut_self {α : Type} (l : List (String × α)) (k : String) (v : α) :
    assocGet (assocPut l k v) k = some v := by
  induction l with
  | nil => simp [assocGet, assocPut]
  | cons p rest ih =>
      by_cases h : p.1 = k
      · simp [assocPut, assocGet, h]
      · simp [assocPut, assocGet, h, ih]

theorem assocGet_assocPut_ne {α : Type} (l : List (String × α)) (k k' : String) (v : α)
    (h : k' ≠ k) : assocGet (assocPut l k v) k' = assocGet l k' := by
  have hk'k : ¬ k = k' := fun hh => h hh.symm
  induction l with
  | nil => simp [assocGet, assocPut, hk'k]
  | cons p rest ih =>
      by_cases hk : p.1 = k
      · subst hk
        have h1 : ¬ p.1 = k' := fun hh => h hh.symm
        simp [assocPut, assocGet, h1]
      · by_cases hk' : p.1 = k'
        · simp [assocPut, assocGet, hk, hk', h]
        · simp [assocPut, assocGet, hk, hk', ih]

/-! ## CouchDB backend model (storage/couchdb.go)

The kivik client talks to a CouchDB server.  The server state is a map from
document id to a document carrying an integer revision counter and a deleted
flag (CouchDB deletion leaves a tombstone).  The three primitives the adapter
uses — `db.Get`, `db.Put`, `db.Delete` — are modelled by transition functions
whose error messages are exactly the strings the adapter dispatches on
(couchdb.go compares `err.Error()` against "Not Found: missing" and
"Not Found: deleted"). -/

/-- A document as stored by the CouchDB server: note fields plus the
server-side revision counter and the deletion tombstone flag. -/
structure CouchDoc where
  rev : Nat
  deleted : Bool
  title : String
  content : String
  createdAt : Int
  updatedAt : Int
deriving DecidableEq, Repr

/-- The CouchDB revision token corresponding to revision counter `n`
(an opaque non-empty string; a fresh note's `Rev` field is `""`). -/
def revTok (n : Nat) : String := toString n

/-- CouchDB server state: database contents keyed by document id. -/
structure CouchDB where
  docs : List (String × CouchDoc)
deriving Repr

/-- Errors reported by the CouchDB server through kivik. -/
inductive CouchErr where
  | notFoundMissing
  | notFoundDeleted
  | conflict
deriving DecidableEq, Repr

/-- `err.Error()` for a kivik/CouchDB error. -/
def CouchErr.message : CouchErr → String
  | .notFoundMissing => "Not Found: missing"
  | .notFoundDeleted => "Not Found: deleted"
  | .conflict => "Conflict: Document update conflict"

/-- Server semantics of `db.Get(ctx, id)`: a missing id reports
"Not Found: missing", a tombstone reports "Not Found: deleted"; otherwise
the current revision token and document are returned. -/
def CouchDB.serverGet (db : CouchDB) (id : String) :
    Except CouchErr (String × CouchDoc) :=
  match assocGet db.docs id with
  | none => .error .notFoundMissing
  | some d =>
      if d.deleted then .error .notFoundDeleted
      else .ok (revTok d.rev, d)

/-- Server semantics of `db.Put(ctx, id, note)`: creating a fresh id or
recreating a deleted one succeeds; writing over a live document requires the
note's `Rev` field to match the current revision token, else the server
answers with a conflict. -/
def CouchDB.serverPut (db : CouchDB) (id : String) (note : Note) :
    Except CouchErr CouchDB :=
  match assocGet db.docs id with
  | none =>
      .ok ⟨assocPut db.docs id
        ⟨1, false, note.title, note.content, note.createdAt, note.updatedAt⟩⟩
  | some d =>
      if d.deleted then
        .ok ⟨assocPut db.docs id
          ⟨d.rev + 1, false, note.title, note.content, note.createdAt, note.updatedAt⟩⟩
      else if note.rev = revTok d.rev then
        .ok ⟨assocPut db.docs id
          ⟨d.rev + 1, false, note.title, note.content, note.createdAt, note.updatedAt⟩⟩
      else .error .conflict

/-- Server semantics of `db.Delete(ctx, id, rev)`: deleting a live document
with the current revision token leaves a tombstone with a bumped revision;
a stale token is a conflict. -/
def CouchDB.serverDelete (db : CouchDB) (id : String) (rev : String) :
    Except CouchErr CouchDB :=
  match assocGet db.docs id with
  | none => .error .notFoundMissing
  | some d =>
      if d.deleted then .error .notFoundDeleted
      else if rev = revTok d.rev then
        .ok ⟨assocPut db.docs id { d with rev := d.rev + 1, deleted := true }⟩
      else .error .conflict

/-- The note produced by `ScanDoc` into `model.Note`: CouchDB returns the
document body together with its `_id` and current `_rev`. -/
def docToNote (id : String) (d : CouchDoc) : Note :=
  ⟨id, revTok d.rev, d.title, d.content, d.createdAt, d.updatedAt⟩

/-- Embedding of Go's `strings.HasPrefix(s, pre)`, computed structurally on
the character lists. -/
def goHasPrefix (s pre : String) : Bool :=
  pre.data.isPrefixOf s.data

/-- `CouchDBStorage.Create` (couchdb.go:103): one `Put`; any server error is
wrapped as `fmt.Errorf("failed to create note: %w", err)` — there is no
translation to a dedicated already-exists sentinel. -/
def CouchDBStorage.Create (db : CouchDB) (note : Note) :
    Except GoError CouchDB :=
  match db.serverPut note.id note with
  | .error e => .error (.errorf ("failed to create note: " ++ e.message))
  | .ok db' => .ok db'

/-- `CouchDBStorage.Get` (couchdb.go:115): maps both "Not Found: missing"
and "Not Found: deleted" to `ErrNoteNotFound`, wraps anything else. -/
def CouchDBStorage.Get (db : CouchDB) (id : String) : Except GoError Note :=
  match db.serverGet id with
  | .error e =>
      if e.message = "Not Found: missing" ∨ e.message = "Not Found: deleted" then
        .error .noteNotFound
      else .error (.errorf ("failed to get note: " ++ e.message))
  | .ok (_, d) => .ok (docToNote id d)

/-- `CouchDBStorage.GetAll` (couchdb.go:134): `AllDocs` lists the live
documents; ids starting with "_design/" or "_" are skipped as
backend-internal. -/
def CouchDBStorage.GetAll (db : CouchDB) : Except GoError (List Note) :=
  .ok ((db.docs.filter (fun p => !p.2.deleted)).filterMap (fun p =>
    if goHasPrefix p.1 "_design/" ∨ goHasPrefix p.1 "_" then none
    else some (docToNote p.1 p.2)))

/-- `CouchDBStorage.Update` (couchdb.go:182): re-read to fetch the current
revision — only "Not Found: missing" maps to `ErrNoteNotFound` — then `Put`
carrying that revision.  `interfere` models writes committed by other
clients between the two round trips (`id` for a quiet store); a rejected
`Put` is wrapped as `fmt.Errorf("failed to update note: %w", err)`. -/
def CouchDBStorage.Update (db : CouchDB) (note : Note)
    (interfere : CouchDB → CouchDB) : Except GoError CouchDB :=
  match db.serverGet note.id with
  | .error e =>
      if e.message = "Not Found: missing" then .error .noteNotFound
      else .error (.errorf ("failed to get note for update: " ++ e.message))
  | .ok (rev, _) =>
      let note' := { note with rev := rev }
      let db' := interfere db
      match db'.serverPut note'.id note' with
      | .error e => .error (.errorf ("failed to update note: " ++ e.message))
      | .ok db'' => .ok db''

/-- `CouchDBStorage.Delete` (couchdb.go:217): re-read — both not-found
messages map to `ErrNoteNotFound` — then `Delete` carrying the revision,
then a verification read expecting "Not Found: deleted". -/
def CouchDBStorage.Delete (db : CouchDB) (id : String)
    (interfere : CouchDB → CouchDB) : Except GoError CouchDB :=
  match db.serverGet id with
  | .error e =>
      if e.message = "Not Found: missing" ∨ e.message = "Not Found: deleted" then
        .error .noteNotFound
      else .error (.errorf ("failed to get note for deletion: " ++ e.message))
  | .ok (rev, _) =>
      let db' := interfere db
      match db'.serverDelete id rev with
      | .error e => .error (.errorf ("failed to delete note: " ++ e.message))
      | .ok db'' =>
          match db''.serverGet id with
          | .ok _ => .error (.errorf "document still exists after deletion")
          | .error e =>
              if e.message ≠ "Not Found: deleted" then
                .error (.errorf ("unexpected error after deletion: " ++ e.message))
              else .ok db''

/-- `CouchDBStorage.Close` (couchdb.go:259): the kivik client needs no
explicit closing; always nil. -/
def CouchDBStorage.Close (_db : CouchDB) : Except GoError Unit :=
  .ok ()

/-! ## MongoDB backend model (storage/mongodb.go)

The adapter uses four driver primitives: `InsertOne` (duplicate `_id` is a
duplicate-key error), `FindOne` (`mongo.ErrNoDocuments` when nothing
matches), `ReplaceOne`/`DeleteOne` (report `MatchedCount`/`DeletedCount`),
and `Client.Disconnect` (which errors when the client is already
disconnected). -/

/-- Errors reported by the MongoDB driver. -/
inductive MongoErr where
  | noDocuments
  | duplicateKey
  | clientDisconnected
deriving DecidableEq, Repr

/-- `err.Error()` for a MongoDB driver error. -/
def MongoErr.message : MongoErr → String
  | .noDocuments => "mongo: no documents in result"
  | .duplicateKey => "duplicate key error"
  | .clientDisconnected => "client is disconnected"

/-- Embedding of `storage.MongoDBStorage`: the collection contents keyed by
`_id`, plus whether the client is still connected (`Disconnect` is the only
operation that inspects or changes that flag). -/
structure MongoDBStorage where
  connected : Bool
  coll : List (String × Note)
deriving Repr

/-- Driver semantics of `collection.InsertOne`: `_id` is the primary key, a
second document with the same `_id` is rejected with a duplicate-key error. -/
def mongoInsertOne (coll : List (String × Note)) (note : Note) :
    Except MongoErr (List (String × Note)) :=
  match assocGet coll note.id with
  | some _ => .error .duplicateKey
  | none => .ok (coll ++ [(note.id, note)])

/-- Driver semantics of `collection.FindOne` with filter `{_id: id}`. -/
def mongoFindOne (coll : List (String × Note)) (id : String) :
    Except MongoErr Note :=
  match assocGet coll id with
  | none => .error .noDocuments
  | some n => .ok n

/-- Driver semantics of `collection.ReplaceOne` with filter `{_id: id}`:
returns `MatchedCount` and the new collection contents. -/
def mongoReplaceOne (coll : List (String × Note)) (id : String) (note : Note) :
    Nat × List (String × Note) :=
  match assocGet coll id with
  | none => (0, coll)
  | some _ => (1, assocPut coll id note)

/-- Driver semantics of `collection.DeleteOne` with filter `{_id: id}`:
returns `DeletedCount` and the new collection contents. -/
def mongoDeleteOne (coll : List (String × Note)) (id : String) :
    Nat × List (String × Note) :=
  match assocGet coll id with
  | none => (0, coll)
  | some _ => (1, assocDel coll id)

/-- Driver semantics of `client.Disconnect`: succeeds on a connected client
(leaving it disconnected) and returns an error on an already-disconnected
one. -/
def mongoClientDisconnect (connected : Bool) : Except MongoErr Bool :=
  if connected then .ok false else .error .clientDisconnected

/-- `MongoDBStorage.Create` (mongodb.go:67): one `InsertOne`; any driver
error is wrapped as `fmt.Errorf("failed to insert note: %w", err)`. -/
def MongoDBStorage.Create (s : MongoDBStorage) (note : Note) :
    Except GoError MongoDBStorage :=
  match mongoInsertOne s.coll note with
  | .error e => .error (.errorf ("failed to insert note: " ++ e.message))
  | .ok c => .ok { s with coll := c }

/-- `MongoDBStorage.Get` (mongodb.go:79): `mongo.ErrNoDocuments` maps to
`ErrNoteNotFound`; anything else is wrapped. -/
def MongoDBStorage.Get (s : MongoDBStorage) (id : String) :
    Except GoError Note :=
  match mongoFindOne s.coll id with
  | .error .noDocuments => .error .noteNotFound
  | .error e => .error (.errorf ("failed to find note: " ++ e.message))
  | .ok n => .ok n

/-- `MongoDBStorage.GetAll` (mongodb.go:97): all documents. -/
def MongoDBStorage.GetAll (s : MongoDBStorage) :
    Except GoError (List Note) :=
  .ok (s.coll.map Prod.snd)

/-- `MongoDBStorage.Update` (mongodb.go:117): a single `ReplaceOne` keyed by
`_id`; `MatchedCount == 0` maps to `ErrNoteNotFound`. -/
def MongoDBStorage.Update (s : MongoDBStorage) (note : Note) :
    Except GoError MongoDBStorage :=
  let r := mongoReplaceOne s.coll note.id note
  if r.1 = 0 then .error .noteNotFound
  else .ok { s with coll := r.2 }

/-- `MongoDBStorage.Delete` (mongodb.go:135): a single `DeleteOne` keyed by
`_id`; `DeletedCount == 0` maps to `ErrNoteNotFound`. -/
def MongoDBStorage.Delete (s : MongoDBStorage) (id : String) :
    Except GoError MongoDBStorage :=
  let r := mongoDeleteOne s.coll id
  if r.1 = 0 then .error .noteNotFound
  else .ok { s with coll := r.2 }

/-- `MongoDBStorage.Close` (mongodb.go:152): `client.Disconnect`, wrapping
its error as `fmt.Errorf("failed to disconnect from MongoDB: %w", err)`. -/
def MongoDBStorage.Close (s : MongoDBStorage) :
    Except GoError MongoDBStorage :=
  match mongoClientDisconnect s.connected with
  | .error e => .error (.errorf ("failed to disconnect from MongoDB: " ++ e.message))
  | .ok b => .ok { s with connected := b }

/-! ## REST update handler (rest/handlers.go)

`Handler.updateNote` serves PUT /api/notes/{id} against the storage
interface; it is embedded here over the in-memory adapter (the default
backend).  The JSON body decode is modelled as `Option Note` (`none` for an
undecodable body). -/

/-- An HTTP response as produced by the handler: status code and the JSON
note body, when one is written. -/
structure HttpResponse where
  status : Nat
  body : Option Note
deriving DecidableEq, Repr

/-- `Handler.updateNote` (handlers.go:170): decode the body (400 on
failure), overwrite the decoded note's ID with the {id} path parameter,
call `storage.Update` (404 on `ErrNoteNotFound`, 500 otherwise), and echo
the updated note with status 200. -/
def Handler.updateNote (s : InMemoryStorage) (id : String)
    (body : Option Note) : HttpResponse × InMemoryStorage :=
  match body with
  | none => (⟨400, none⟩, s)
  | some note =>
      let note' := { note with id := id }
      match s.Update note' with
      | .error .noteNotFound => (⟨404, none⟩, s)
      | .error _ => (⟨500, none⟩, s)
      | .ok s' => (⟨200, some note'⟩, s')

/-! ## Helper lemmas and concrete examples -/

theorem assocPut_of_fresh {α : Type} (l : List (String × α)) (k : String) (v : α)
    (h : assocGet l k = none) : assocPut l k v = l ++ [(k, v)] := by
  induction l with
  | nil => simp [assocPut]
  | cons p rest ih =>
      by_cases hk : p.1 = k
      · simp [assocGet, hk] at h
      · simp [assocGet, hk] at h
        simp [assocPut, hk, ih h]

theorem assocGet_append_of_none {α : Type} (l₁ l₂ : List (String × α)) (k : String)
    (h : assocGet l₁ k = none) : assocGet (l₁ ++ l₂) k = assocGet l₂ k := by
  induction l₁ with
  | nil => simp
  | cons p rest ih =>
      by_cases hk : p.1 = k
      · simp [assocGet, hk] at h
      · simp [assocGet, hk] at h ⊢
        exact ih h

/-- After a successful `serverPut`, the document stored at the id is live
and carries exactly the note's payload fields. -/
theorem serverPut_ok_stored (db : CouchDB) (idk : String) (n : Note) (db' : CouchDB)
    (h : db.serverPut idk n = .ok db') :
    ∃ r : Nat, assocGet db'.docs idk =
      some ⟨r, false, n.title, n.content, n.createdAt, n.updatedAt⟩ := by
  unfold CouchDB.serverPut at h
  cases hg : assocGet db.docs idk with
  | none =>
      rw [hg] at h
      cases h
      exact ⟨1, assocGet_assocPut_self ..⟩
  | some d =>
      rw [hg] at h
      by_cases hd : d.deleted
      · simp [hd] at h
        cases h
        exact ⟨d.rev + 1, assocGet_assocPut_self ..⟩
      · by_cases hr : n.rev = revTok d.rev
        · simp [hd, hr] at h
          cases h
          exact ⟨d.rev + 1, assocGet_assocPut_self ..⟩
        · simp [hd, hr] at h

/-- A live stored document makes the adapter `Get` return the corresponding
note. -/
theorem couchGet_of_stored (db : CouchDB) (idk : String) (d : CouchDoc)
    (h : assocGet db.docs idk = some d) (hd : d.deleted = false) :
    CouchDBStorage.Get db idk = .ok (docToNote idk d) := by
  simp [CouchDBStorage.Get, CouchDB.serverGet, h, hd]

/-- Concrete notes and documents used in witnesses and counterexamples. -/
def noteA : Note := ⟨"n1", "", "T", "C", 5, 5⟩

def noteStale : Note := ⟨"n1", "", "T2", "C2", 5, 0⟩

def noteDup1 : Note := ⟨"dup", "", "first", "a", 1, 1⟩

def noteDup2 : Note := ⟨"dup", "", "second", "b", 2, 2⟩

def noteOther : Note := ⟨"other", "", "O", "o", 3, 3⟩

def noteBodyOther : Note := ⟨"other", "", "T2", "C2", 5, 6⟩

def docLive : CouchDoc := ⟨1, false, "T", "C", 5, 5⟩

/-- A concurrent writer committing a new revision of "n1" between the
adapter's read and write round trips. -/
def bumpN1 (db : CouchDB) : CouchDB :=
  ⟨assocPut db.docs "n1" ⟨2, false, "X", "Y", 5, 6⟩⟩

/-! ## Claims -/

/-- C1 counterexample: no adapter refreshes `updatedAt`.  Updating "n1"
with a note whose `updatedAt` (0) is older than its `createdAt` (5)
succeeds in the in-memory adapter and stores that stale `updatedAt`
verbatim, so after the update the stored `updatedAt` is strictly below
`createdAt` and is exactly the caller-supplied value, refuting the claim
that the adapter refreshes it. -/
theorem c1_counterexample :
    InMemoryStorage.Update ⟨[("n1", noteA)]⟩ noteStale = .ok ⟨[("n1", noteStale)]⟩ ∧
    InMemoryStorage.Get ⟨[("n1", noteStale)]⟩ "n1" = .ok noteStale ∧
    noteStale.updatedAt < noteStale.createdAt :=
  ⟨rfl, rfl, by decide⟩

/-- C1 (amended): a successful `update` stores the supplied note's fields
verbatim, `updatedAt` included — no adapter refreshes the timestamp, so the
stored `updatedAt` is exactly the caller's value (and `updatedAt >=
createdAt` holds only when the supplied note already satisfies it).
In-memory and MongoDB store the note exactly; CouchDB stores the same
payload with only the revision token replaced. -/
theorem c1_update_stores_supplied_note :
    (∀ (s : InMemoryStorage) (n : Note) (s' : InMemoryStorage),
      s.Update n = .ok s' → s'.Get n.id = .ok n) ∧
    (∀ (m : MongoDBStorage) (n : Note) (m' : MongoDBStorage),
      m.Update n = .ok m' → m'.Get n.id = .ok n) ∧
    (∀ (db : CouchDB) (n : Note) (f : CouchDB → CouchDB) (db' : CouchDB),
      CouchDBStorage.Update db n f = .ok db' →
      ∃ m, CouchDBStorage.Get db' n.id = .ok m ∧
        m.title = n.title ∧ m.content = n.content ∧ m.updatedAt = n.updatedAt) := by
  refine ⟨?_, ?_, ?_⟩
  · intro s n s' h
    unfold InMemoryStorage.Update at h
    cases hg : assocGet s.notes n.id with
    | none => rw [hg] at h; cases h
    | some x =>
        rw [hg] at h
        cases h
        simp [InMemoryStorage.Get, assocGet_assocPut_self]
  · intro m n m' h
    unfold MongoDBStorage.Update mongoReplaceOne at h
    cases hg : assocGet m.coll n.id with
    | none => rw [hg] at h; simp at h
    | some x =>
        rw [hg] at h
        simp at h
        cases h
        simp [MongoDBStorage.Get, mongoFindOne, assocGet_assocPut_self]
  · intro db n f db' h
    unfold CouchDBStorage.Update at h
    cases hgread : db.serverGet n.id with
    | error e =>
        rw [hgread] at h
        by_cases hm : e.message = "Not Found: missing" <;> simp [hm] at h
    | ok rd =>
        rw [hgread] at h
        cases hput : (f db).serverPut n.id { n with rev := rd.1 } with
        | error e => simp [hput] at h
        | ok db'' =>
            simp [hput] at h
            cases h
            obtain ⟨r, hstored⟩ := serverPut_ok_stored _ _ _ _ hput
            exact ⟨docToNote n.id ⟨r, false, n.title, n.content, n.createdAt, n.updatedAt⟩,
              couchGet_of_stored _ _ _ hstored rfl, rfl, rfl, rfl⟩

/-- C1 witness: applying the amended theorem at concrete inputs. -/
theorem c1_update_stores_supplied_note_witness :
    InMemoryStorage.Get ⟨[("n1", noteStale)]⟩ "n1" = .ok noteStale ∧
    MongoDBStorage.Get ⟨true, [("n1", noteStale)]⟩ "n1" = .ok noteStale :=
  ⟨c1_update_stores_supplied_note.1 ⟨[("n1", noteA)]⟩ noteStale ⟨[("n1", noteStale)]⟩ rfl,
   c1_update_stores_supplied_note.2.1 ⟨true, [("n1", noteA)]⟩ noteStale
     ⟨true, [("n1", noteStale)]⟩ rfl⟩

/-- C2 counterexample: the in-memory adapter does not fail with an
already-exists error on an id collision — `Create` on the occupied id "dup"
returns success and replaces the stored record, refuting both "fails with
the shared AlreadyExists error" and "leaves the already-stored record
unchanged". -/
theorem c2_counterexample :
    InMemoryStorage.Create ⟨[("dup", noteDup1)]⟩ noteDup2 = .ok ⟨[("dup", noteDup2)]⟩ ∧
    noteDup2 ≠ noteDup1 :=
  ⟨rfl, by decide⟩

/-- C2 (amended): no shared AlreadyExists sentinel exists (the storage
package defines only `ErrNoteNotFound`).  On an id collision the in-memory
adapter silently overwrites and succeeds; the CouchDB adapter wraps the
database's conflict response into the generic error "failed to create
note: ..." (no translation to a dedicated sentinel); the MongoDB adapter
likewise wraps the duplicate-key error.  The document-store backends do
leave the stored record unchanged, since their create fails. -/
theorem c2_create_collision_behavior :
    (∀ (s : InMemoryStorage) (n : Note),
      s.Create n = .ok ⟨assocPut s.notes n.id n⟩ ∧
      InMemoryStorage.Get ⟨assocPut s.notes n.id n⟩ n.id = .ok n) ∧
    (∀ (db : CouchDB) (n : Note) (d : CouchDoc),
      assocGet db.docs n.id = some d → d.deleted = false → n.rev ≠ revTok d.rev →
      CouchDBStorage.Create db n =
        .error (.errorf "failed to create note: Conflict: Document update conflict")) ∧
    (∀ (m : MongoDBStorage) (n x : Note),
      assocGet m.coll n.id = some x →
      m.Create n = .error (.errorf "failed to insert note: duplicate key error")) := by
  refine ⟨?_, ?_, ?_⟩
  · intro s n
    exact ⟨rfl, by simp [InMemoryStorage.Get, assocGet_assocPut_self]⟩
  · intro db n d hg hd hr
    simp [CouchDBStorage.Create, CouchDB.serverPut, hg, hd, hr, CouchErr.message]
  · intro m n x hg
    simp [MongoDBStorage.Create, mongoInsertOne, hg, MongoErr.message]

/-- C2 witness: applying the theorem at concrete colliding inputs. -/
theorem c2_create_collision_behavior_witness :
    InMemoryStorage.Get ⟨assocPut [("dup", noteDup1)] "dup" noteDup2⟩ "dup" = .ok noteDup2 ∧
    CouchDBStorage.Create ⟨[("n1", docLive)]⟩ noteA =
      .error (.errorf "failed to create note: Conflict: Document update conflict") ∧
    MongoDBStorage.Create ⟨true, [("dup", noteDup1)]⟩ noteDup2 =
      .error (.errorf "failed to insert note: duplicate key error") :=
  ⟨(c2_create_collision_behavior.1 ⟨[("dup", noteDup1)]⟩ noteDup2).2,
   c2_create_collision_behavior.2.1 ⟨[("n1", docLive)]⟩ noteA docLive rfl rfl (by decide),
   c2_create_collision_behavior.2.2 ⟨true, [("dup", noteDup1)]⟩ noteDup2 noteDup1 rfl⟩

/-- C3 counterexample: the CouchDB adapter does not surface a dedicated
Conflict error.  With a live "n1" at revision 1 and a concurrent writer
committing revision 2 between the adapter's read and its write, `Update`'s
revision-carrying `Put` is rejected and the adapter returns the generic
`fmt.Errorf`-wrapped error "failed to update note: ..." — the same
unclassified shape as any other internal failure (the storage package
defines no Conflict sentinel a caller could compare against). -/
theorem c3_counterexample :
    CouchDBStorage.Update ⟨[("n1", docLive)]⟩ noteStale bumpN1 =
      .error (.errorf "failed to update note: Conflict: Document update conflict") :=
  rfl

/-- C3 (amended): the re-read half of the claim holds — `Update` on a
missing document and `Delete` on a missing or deleted document return
`ErrNoteNotFound` without attempting the write.  The conflict half fails:
a revision-mismatch rejection of the second round trip is surfaced as the
wrapped generic error "failed to update note: ...", not as a dedicated
Conflict error distinct from the not-found sentinel. -/
theorem c3_couch_read_then_write :
    (∀ (db : CouchDB) (n : Note) (f : CouchDB → CouchDB),
      assocGet db.docs n.id = none →
      CouchDBStorage.Update db n f = .error .noteNotFound) ∧
    (∀ (db : CouchDB) (id : String) (f : CouchDB → CouchDB) (d : CouchDoc),
      assocGet db.docs id = none ∨ (assocGet db.docs id = some d ∧ d.deleted = true) →
      CouchDBStorage.Delete db id f = .error .noteNotFound) ∧
    (∀ (db : CouchDB) (n : Note) (f : CouchDB → CouchDB) (rev : String) (d : CouchDoc),
      db.serverGet n.id = .ok (rev, d) →
      (f db).serverPut n.id { n with rev := rev } = .error .conflict →
      CouchDBStorage.Update db n f =
        .error (.errorf "failed to update note: Conflict: Document update conflict")) := by
  refine ⟨?_, ?_, ?_⟩
  · intro db n f hg
    simp [CouchDBStorage.Update, CouchDB.serverGet, hg, CouchErr.message]
  · intro db id f d hcase
    rcases hcase with hg | ⟨hg, hd⟩
    · simp [CouchDBStorage.Delete, CouchDB.serverGet, hg, CouchErr.message]
    · simp [CouchDBStorage.Delete, CouchDB.serverGet, hg, hd, CouchErr.message]
  · intro db n f rev d hread hput
    simp [CouchDBStorage.Update, hread, hput, CouchErr.message]

/-- C3 witness: applying the theorem at concrete inputs. -/
theorem c3_couch_read_then_write_witness :
    CouchDBStorage.Update ⟨[]⟩ noteA (fun db => db) = .error .noteNotFound ∧
    CouchDBStorage.Delete ⟨[]⟩ "ghost" (fun db => db) = .error .noteNotFound ∧
    CouchDBStorage.Update ⟨[("n1", docLive)]⟩ noteA bumpN1 =
      .error (.errorf "failed to update note: Conflict: Document update conflict") :=
  ⟨c3_couch_read_then_write.1 ⟨[]⟩ noteA (fun db => db) rfl,
   c3_couch_read_then_write.2.1 ⟨[]⟩ "ghost" (fun db => db) docLive (Or.inl rfl),
   c3_couch_read_then_write.2.2 ⟨[("n1", docLive)]⟩ noteA bumpN1 "1" docLive rfl rfl⟩

/-- C7: the in-memory adapter's `Create` on a colliding id does not fail —
it overwrites the stored record (last write wins), returns success, and a
subsequent `Get` returns the newly supplied note. -/
theorem c7_inmem_create_overwrites (s : InMemoryStorage) (n old : Note)
    (h : assocGet s.notes n.id = some old) :
    ∃ s', s.Create n = .ok s' ∧ s'.Get n.id = .ok n :=
  ⟨⟨assocPut s.notes n.id n⟩, rfl, by simp [InMemoryStorage.Get, assocGet_assocPut_self]⟩

/-- C7 witness. -/
theorem c7_inmem_create_overwrites_witness :
    ∃ s', InMemoryStorage.Create ⟨[("dup", noteDup1)]⟩ noteDup2 = .ok s' ∧
      s'.Get "dup" = .ok noteDup2 :=
  c7_inmem_create_overwrites ⟨[("dup", noteDup1)]⟩ noteDup2 noteDup1 rfl

/-- The database state after creating "n1" on an empty CouchDB. -/
def dbLiveN1 : CouchDB := ⟨[("n1", ⟨1, false, "T", "C", 5, 5⟩)]⟩

/-- The database state after then deleting "n1": CouchDB keeps a tombstone
with a bumped revision, and reports "Not Found: deleted" for it. -/
def dbTombN1 : CouchDB := ⟨[("n1", ⟨2, true, "T", "C", 5, 5⟩)]⟩

/-- C4: the claim is the code's own intent, but the CouchDB adapter's
`Update` violates it on an already-deleted id.  The scenario below runs the
adapter itself: create "n1", delete it (the server now answers "Not Found:
deleted"), then `Get` and a repeated `Delete` both return `ErrNoteNotFound`
— yet `Update` on the very same id returns the wrapped generic error
"failed to get note for update: Not Found: deleted" instead of the
sentinel, because couchdb.go:187 checks only the "Not Found: missing"
message while the sibling `Get` (couchdb.go:123) and `Delete`
(couchdb.go:222) both also map "Not Found: deleted" to `ErrNoteNotFound`.
The in-memory and MongoDB conjuncts show the never-created case behaving
as claimed. -/
theorem c4_notfound_consistency_scenario :
    CouchDBStorage.Create ⟨[]⟩ noteA = .ok dbLiveN1 ∧
    CouchDBStorage.Delete dbLiveN1 "n1" (fun db => db) = .ok dbTombN1 ∧
    CouchDBStorage.Get dbTombN1 "n1" = .error .noteNotFound ∧
    CouchDBStorage.Delete dbTombN1 "n1" (fun db => db) = .error .noteNotFound ∧
    CouchDBStorage.Update dbTombN1 noteA (fun db => db) =
      .error (.errorf "failed to get note for update: Not Found: deleted") ∧
    InMemoryStorage.Get InMemoryStorage.emptyStore "ghost" = .error .noteNotFound ∧
    InMemoryStorage.Update InMemoryStorage.emptyStore noteA = .error .noteNotFound ∧
    InMemoryStorage.Delete InMemoryStorage.emptyStore "ghost" = .error .noteNotFound ∧
    MongoDBStorage.Get ⟨true, []⟩ "ghost" = .error .noteNotFound ∧
    MongoDBStorage.Update ⟨true, []⟩ noteA = .error .noteNotFound ∧
    MongoDBStorage.Delete ⟨true, []⟩ "ghost" = .error .noteNotFound :=
  ⟨rfl, rfl, rfl, rfl, rfl, rfl, rfl, rfl, rfl, rfl, rfl⟩

/-- C5: the MongoDB adapter's `Update`/`Delete` are single count-based
operations keyed by `_id`: they return `ErrNoteNotFound` exactly when the
reported matched/deleted count is zero (no document with that id), and on a
nonzero count they succeed, replacing/removing that one document.  There is
no separate existence-check read: the embedded adapter issues exactly one
`ReplaceOne`/`DeleteOne` call. -/
theorem c5_mongo_count_based :
    (∀ (m : MongoDBStorage) (n : Note),
      assocGet m.coll n.id = none → m.Update n = .error .noteNotFound) ∧
    (∀ (m : MongoDBStorage) (n x : Note),
      assocGet m.coll n.id = some x →
      m.Update n = .ok { m with coll := assocPut m.coll n.id n }) ∧
    (∀ (m : MongoDBStorage) (id : String),
      assocGet m.coll id = none → m.Delete id = .error .noteNotFound) ∧
    (∀ (m : MongoDBStorage) (id : String) (x : Note),
      assocGet m.coll id = some x →
      m.Delete id = .ok { m with coll := assocDel m.coll id }) := by
  refine ⟨?_, ?_, ?_, ?_⟩
  · intro m n hg
    simp [MongoDBStorage.Update, mongoReplaceOne, hg]
  · intro m n x hg
    simp [MongoDBStorage.Update, mongoReplaceOne, hg]
  · intro m id hg
    simp [MongoDBStorage.Delete, mongoDeleteOne, hg]
  · intro m id x hg
    simp [MongoDBStorage.Delete, mongoDeleteOne, hg]

/-- C5 witness: both zero-count and nonzero-count branches at concrete
inputs. -/
theorem c5_mongo_count_based_witness :
    MongoDBStorage.Update ⟨true, []⟩ noteA = .error .noteNotFound ∧
    MongoDBStorage.Update ⟨true, [("n1", noteA)]⟩ noteStale =
      .ok ⟨true, assocPut [("n1", noteA)] "n1" noteStale⟩ ∧
    MongoDBStorage.Delete ⟨true, []⟩ "ghost" = .error .noteNotFound ∧
    MongoDBStorage.Delete ⟨true, [("n1", noteA)]⟩ "n1" =
      .ok ⟨true, assocDel [("n1", noteA)] "n1"⟩ :=
  ⟨c5_mongo_count_based.1 ⟨true, []⟩ noteA rfl,
   c5_mongo_count_based.2.1 ⟨true, [("n1", noteA)]⟩ noteStale noteA rfl,
   c5_mongo_count_based.2.2.1 ⟨true, []⟩ "ghost" rfl,
   c5_mongo_count_based.2.2.2 ⟨true, [("n1", noteA)]⟩ "n1" noteA rfl⟩

/-- C6: round-trip — whenever `create(n)` succeeds, `get(n.id)` succeeds
and returns a note agreeing with `n` on id, title and content.  For the
in-memory adapter the stored note is `n` itself; for CouchDB the returned
note carries the server's fresh revision token but the same id, title and
content. -/
theorem c6_roundtrip :
    (∀ (s : InMemoryStorage) (n : Note) (s' : InMemoryStorage),
      s.Create n = .ok s' → ∃ m, s'.Get n.id = .ok m ∧
        m.id = n.id ∧ m.title = n.title ∧ m.content = n.content) ∧
    (∀ (db : CouchDB) (n : Note) (db' : CouchDB),
      CouchDBStorage.Create db n = .ok db' → ∃ m, CouchDBStorage.Get db' n.id = .ok m ∧
        m.id = n.id ∧ m.title = n.title ∧ m.content = n.content) := by
  constructor
  · intro s n s' h
    cases h
    exact ⟨n, by simp [InMemoryStorage.Get, assocGet_assocPut_self], rfl, rfl, rfl⟩
  · intro db n db' h
    unfold CouchDBStorage.Create at h
    cases hput : db.serverPut n.id n with
    | error e => simp [hput] at h
    | ok db'' =>
        simp [hput] at h
        cases h
        obtain ⟨r, hstored⟩ := serverPut_ok_stored _ _ _ _ hput
        exact ⟨docToNote n.id ⟨r, false, n.title, n.content, n.createdAt, n.updatedAt⟩,
          couchGet_of_stored _ _ _ hstored rfl, rfl, rfl, rfl⟩

/-- C6 witness: concrete create-then-get round trips on both adapters. -/
theorem c6_roundtrip_witness :
    (∃ m, InMemoryStorage.Get ⟨assocPut [] "n1" noteA⟩ "n1" = .ok m ∧
      m.id = noteA.id ∧ m.title = noteA.title ∧ m.content = noteA.content) ∧
    (∃ m, CouchDBStorage.Get dbLiveN1 "n1" = .ok m ∧
      m.id = noteA.id ∧ m.title = noteA.title ∧ m.content = noteA.content) :=
  ⟨c6_roundtrip.1 InMemoryStorage.emptyStore noteA ⟨assocPut [] "n1" noteA⟩ rfl,
   c6_roundtrip.2 ⟨[]⟩ noteA dbLiveN1 rfl⟩

/-- One step of a create loop against the in-memory adapter: apply `Create`
and keep the new state (Create never fails on this adapter). -/
def createStep (s : InMemoryStorage) (n : Note) : InMemoryStorage :=
  match s.Create n with
  | .ok s' => s'
  | .error _ => s

/-- Creating a list of notes, one `Create` each, starting from a fresh
in-memory store. -/
def createAll (notes : List Note) : InMemoryStorage :=
  notes.foldl createStep InMemoryStorage.emptyStore

theorem createAll_go (notes : List Note) :
    ∀ (s : InMemoryStorage), (notes.map Note.id).Nodup →
    (∀ n ∈ notes, assocGet s.notes n.id = none) →
    (notes.foldl createStep s).notes = s.notes ++ notes.map (fun n => (n.id, n)) := by
  induction notes with
  | nil => intro s _ _; simp
  | cons n₁ rest ih =>
      intro s hnd hfresh
      have hfresh₁ : assocGet s.notes n₁.id = none := hfresh n₁ (List.mem_cons_self _ _)
      have hput : (createStep s n₁).notes = s.notes ++ [(n₁.id, n₁)] := by
        simp [createStep, InMemoryStorage.Create, assocPut_of_fresh _ _ _ hfresh₁]
      have hnd2 : (∀ x ∈ rest, ¬ x.id = n₁.id) ∧ (List.map Note.id rest).Nodup := by
        simpa using hnd
      have hfresh' : ∀ n ∈ rest, assocGet (createStep s n₁).notes n.id = none := by
        intro n hn
        rw [hput, assocGet_append_of_none _ _ _ (hfresh n (List.mem_cons_of_mem _ hn))]
        have hne : ¬ n₁.id = n.id := fun he => hnd2.1 n hn he.symm
        simp [assocGet, hne]
      have := ih (createStep s n₁) hnd2.2 hfresh'
      simp only [List.foldl_cons, this, hput, List.map_cons]
      simp

/-- The document a successful first create of note `n` stores in CouchDB:
revision 1, live, carrying the note's payload. -/
def freshDoc (n : Note) : CouchDoc :=
  ⟨1, false, n.title, n.content, n.createdAt, n.updatedAt⟩

/-- One step of a create loop against the CouchDB adapter: apply `Create`
and keep the new database state on success. -/
def couchCreateStep (db : CouchDB) (n : Note) : CouchDB :=
  match CouchDBStorage.Create db n with
  | .ok db' => db'
  | .error _ => db

/-- Creating a list of notes, one `Create` each, into an empty CouchDB
database. -/
def couchCreateAll (notes : List Note) : CouchDB :=
  notes.foldl couchCreateStep ⟨[]⟩

/-- An id without the reserved "_" prefix cannot have the "_design/" prefix
either. -/
theorem goHasPrefix_underscore_mono (s : String)
    (h : goHasPrefix s "_" = false) : goHasPrefix s "_design/" = false := by
  unfold goHasPrefix at h ⊢
  have h1 : "_".data = ['_'] := rfl
  have h2 : "_design/".data = ['_', 'd', 'e', 's', 'i', 'g', 'n', '/'] := rfl
  rw [h1] at h
  rw [h2]
  cases hd : s.data with
  | nil => rfl
  | cons c rest =>
      rw [hd] at h
      have h' : ('_' == c && List.isPrefixOf ([] : List Char) rest) = false := h
      have hc : ('_' == c) = false := by
        cases hcc : ('_' == c)
        · rfl
        · rw [hcc] at h'
          simp [List.isPrefixOf] at h'
      show ('_' == c && List.isPrefixOf ['d', 'e', 's', 'i', 'g', 'n', '/'] rest) = false
      rw [hc]
      rfl

theorem couchCreateAll_go (notes : List Note) :
    ∀ (db : CouchDB), (notes.map Note.id).Nodup →
    (∀ n ∈ notes, assocGet db.docs n.id = none) →
    (notes.foldl couchCreateStep db).docs =
      db.docs ++ notes.map (fun n => (n.id, freshDoc n)) := by
  induction notes with
  | nil => intro db _ _; simp
  | cons n₁ rest ih =>
      intro db hnd hfresh
      have hfresh₁ : assocGet db.docs n₁.id = none := hfresh n₁ (List.mem_cons_self _ _)
      have hput : (couchCreateStep db n₁).docs = db.docs ++ [(n₁.id, freshDoc n₁)] := by
        simp [couchCreateStep, CouchDBStorage.Create, CouchDB.serverPut, hfresh₁,
          freshDoc, assocPut_of_fresh _ _ _ hfresh₁]
      have hnd2 : (∀ x ∈ rest, ¬ x.id = n₁.id) ∧ (List.map Note.id rest).Nodup := by
        simpa using hnd
      have hfresh' : ∀ n ∈ rest, assocGet (couchCreateStep db n₁).docs n.id = none := by
        intro n hn
        rw [hput, assocGet_append_of_none _ _ _ (hfresh n (List.mem_cons_of_mem _ hn))]
        have hne : ¬ n₁.id = n.id := fun he => hnd2.1 n hn he.symm
        simp [assocGet, hne]
      have := ih (couchCreateStep db n₁) hnd2.2 hfresh'
      simp only [List.foldl_cons, this, hput, List.map_cons]
      simp

/-- `GetAll` written out as one equation on the database contents. -/
theorem couchGetAll_docs (db : CouchDB) :
    CouchDBStorage.GetAll db =
      .ok ((db.docs.filter (fun p => !p.2.deleted)).filterMap (fun p =>
        if goHasPrefix p.1 "_design/" ∨ goHasPrefix p.1 "_" then none
        else some (docToNote p.1 p.2))) :=
  rfl

/-- Listing a database of freshly created documents with unreserved ids
returns one note per document. -/
theorem couchListAll_fresh (notes : List Note)
    (hnp : ∀ n ∈ notes, goHasPrefix n.id "_" = false) :
    ((notes.map (fun n => (n.id, freshDoc n))).filter (fun p => !p.2.deleted)).filterMap
      (fun p => if goHasPrefix p.1 "_design/" ∨ goHasPrefix p.1 "_" then none
                else some (docToNote p.1 p.2)) =
      notes.map (fun n => docToNote n.id (freshDoc n)) := by
  induction notes with
  | nil => rfl
  | cons n rest ih =>
      have h1 : goHasPrefix n.id "_" = false := hnp n (List.mem_cons_self _ _)
      have h2 : goHasPrefix n.id "_design/" = false := goHasPrefix_underscore_mono _ h1
      have ih' := ih (fun x hx => hnp x (List.mem_cons_of_mem _ hx))
      have hdel : (freshDoc n).deleted = false := rfl
      simp [List.filter_cons, List.filterMap_cons, hdel, h1, h2, ih']

/-- C8: list completeness.  An empty in-memory store and an empty CouchDB
both list an empty sequence (as a success, not an error); creating N notes
with pairwise-distinct ids into a fresh in-memory store makes `GetAll`
return exactly those N notes; creating N notes with pairwise-distinct,
non-reserved ids (no "_" prefix — such ids mark backend-internal documents,
which the claim itself excludes) into an empty CouchDB database makes
`GetAll` return exactly N records whose identifier list equals the created
one; and every note listed by the CouchDB adapter has an id that does not
carry the reserved "_" prefix. -/
theorem c8_list_completeness :
    InMemoryStorage.emptyStore.GetAll = .ok [] ∧
    CouchDBStorage.GetAll ⟨[]⟩ = .ok [] ∧
    (∀ (notes : List Note), (notes.map Note.id).Nodup →
      (createAll notes).GetAll = .ok notes) ∧
    (∀ (notes : List Note), (notes.map Note.id).Nodup →
      (∀ n ∈ notes, goHasPrefix n.id "_" = false) →
      ∃ l, CouchDBStorage.GetAll (couchCreateAll notes) = .ok l ∧
        l.length = notes.length ∧ l.map Note.id = notes.map Note.id) ∧
    (∀ (db : CouchDB) (l : List Note) (n : Note),
      CouchDBStorage.GetAll db = .ok l → n ∈ l → ¬ (goHasPrefix n.id "_" = true)) := by
  refine ⟨rfl, rfl, ?_, ?_, ?_⟩
  · intro notes hnd
    have hgo := createAll_go notes InMemoryStorage.emptyStore hnd
      (fun n _ => by simp [InMemoryStorage.emptyStore, assocGet])
    have hnotes : (createAll notes).notes = notes.map (fun n => (n.id, n)) := by
      simpa [InMemoryStorage.emptyStore] using hgo
    simp [InMemoryStorage.GetAll, hnotes, List.map_map, Function.comp_def]
  · intro notes hnd hnp
    have hdocs : (couchCreateAll notes).docs = notes.map (fun n => (n.id, freshDoc n)) := by
      simpa using couchCreateAll_go notes ⟨[]⟩ hnd (fun n _ => rfl)
    refine ⟨notes.map (fun n => docToNote n.id (freshDoc n)), ?_, by simp, ?_⟩
    · rw [couchGetAll_docs, hdocs, couchListAll_fresh notes hnp]
    · simp [List.map_map, Function.comp_def, docToNote]
  · intro db l n hl hn
    have hl' : l = (db.docs.filter (fun p => !p.2.deleted)).filterMap (fun p =>
        if goHasPrefix p.1 "_design/" ∨ goHasPrefix p.1 "_" then none
        else some (docToNote p.1 p.2)) := by
      have := hl
      unfold CouchDBStorage.GetAll at this
      cases this
      rfl
    subst hl'
    rw [List.mem_filterMap] at hn
    obtain ⟨p, _, hf⟩ := hn
    by_cases hc : goHasPrefix p.1 "_design/" ∨ goHasPrefix p.1 "_"
    · simp [hc] at hf
    · simp [hc] at hf
      intro habs
      exact hc (Or.inr (by rw [← hf, docToNote] at habs; exact habs))

/-- C8 witness: two distinct notes created into a fresh store are listed in
full, and the filter premise is discharged on a concrete CouchDB state with
an internal "_design/..." document. -/
theorem c8_list_completeness_witness :
    (createAll [noteA, noteOther]).GetAll = .ok [noteA, noteOther] ∧
    (∃ l, CouchDBStorage.GetAll (couchCreateAll [noteA, noteOther]) = .ok l ∧
      l.length = ([noteA, noteOther] : List Note).length ∧
      l.map Note.id = ([noteA, noteOther] : List Note).map Note.id) ∧
    ¬ (goHasPrefix (docToNote "n1" docLive).id "_" = true) :=
  ⟨c8_list_completeness.2.2.1 [noteA, noteOther] (by decide),
   c8_list_completeness.2.2.2.1 [noteA, noteOther] (by decide) (by decide),
   c8_list_completeness.2.2.2.2 ⟨[("_design/notes", docLive), ("n1", docLive)]⟩
     [docToNote "n1" docLive] (docToNote "n1" docLive) rfl (List.mem_singleton_self _)⟩

/-- C9 counterexample: the MongoDB adapter's `Close` is not idempotent.
The first `Close` on a connected adapter succeeds (disconnecting the
client); the second `Close` calls `client.Disconnect` on the now
disconnected client, which the driver rejects, and the adapter returns the
wrapped error instead of success. -/
theorem c9_counterexample :
    MongoDBStorage.Close ⟨true, []⟩ = .ok ⟨false, []⟩ ∧
    MongoDBStorage.Close ⟨false, []⟩ =
      .error (.errorf "failed to disconnect from MongoDB: client is disconnected") :=
  ⟨rfl, rfl⟩

/-- C9 (amended): `close` is a guaranteed no-op success — hence idempotent
and safe with no resource to release — for the in-memory and CouchDB
adapters only.  The MongoDB adapter's `close` succeeds once on a connected
client, but a second `close` after a successful first returns the wrapped
driver error rather than success. -/
theorem c9_close_behavior :
    (∀ (s : InMemoryStorage), s.Close = .ok ()) ∧
    (∀ (db : CouchDB), CouchDBStorage.Close db = .ok ()) ∧
    (∀ (m m' : MongoDBStorage), m.Close = .ok m' →
      m'.Close = .error (.errorf "failed to disconnect from MongoDB: client is disconnected")) := by
  refine ⟨fun s => rfl, fun db => rfl, ?_⟩
  intro m m' h
  unfold MongoDBStorage.Close mongoClientDisconnect at h
  by_cases hc : m.connected
  · simp [hc] at h
    cases h
    rfl
  · simp [hc, MongoErr.message] at h

/-- C9 witness: the no-op closes at concrete states, and the MongoDB second
close applied after a concrete successful first close. -/
theorem c9_close_behavior_witness :
    InMemoryStorage.Close InMemoryStorage.emptyStore = .ok () ∧
    CouchDBStorage.Close ⟨[]⟩ = .ok () ∧
    MongoDBStorage.Close ⟨false, []⟩ =
      .error (.errorf "failed to disconnect from MongoDB: client is disconnected") :=
  ⟨c9_close_behavior.1 InMemoryStorage.emptyStore,
   c9_close_behavior.2.1 ⟨[]⟩,
   c9_close_behavior.2.2 ⟨true, []⟩ ⟨false, []⟩ rfl⟩

/-- C10: in the PUT /api/notes/{id} handler the path id always overrides
any id in the JSON body: whatever the decoded body's id is, records at
identifiers other than the path id are untouched, and on success the
record stored at the path id is the body with its id replaced by the path
id. -/
theorem updateNote_some_eq (s : InMemoryStorage) (pid : String) (b : Note) :
    Handler.updateNote s pid (some b) =
      match s.Update { b with id := pid } with
      | .error .noteNotFound => (⟨404, none⟩, s)
      | .error _ => (⟨500, none⟩, s)
      | .ok s2 => (⟨200, some { b with id := pid }⟩, s2) :=
  rfl

theorem inMemUpdate_eq (s : InMemoryStorage) (n : Note) :
    s.Update n =
      match assocGet s.notes n.id with
      | none => .error .noteNotFound
      | some _ => .ok ⟨assocPut s.notes n.id n⟩ :=
  rfl

theorem c10_update_handler_path_id (s : InMemoryStorage) (pid : String) (b : Note) :
    ∀ (res : HttpResponse) (s' : InMemoryStorage),
      Handler.updateNote s pid (some b) = (res, s') →
      (∀ k, k ≠ pid → assocGet s'.notes k = assocGet s.notes k) ∧
      (res.status = 200 → assocGet s'.notes pid = some { b with id := pid }) := by
  intro res s' h
  rw [updateNote_some_eq] at h
  cases hupd : InMemoryStorage.Update s { b with id := pid } with
  | error e =>
      cases e with
      | noteNotFound =>
          rw [hupd] at h
          injection h with h1 h2
          subst h1
          subst h2
          exact ⟨fun k _ => rfl, fun habs => by simp at habs⟩
      | errorf m =>
          rw [hupd] at h
          injection h with h1 h2
          subst h1
          subst h2
          exact ⟨fun k _ => rfl, fun habs => by simp at habs⟩
  | ok s₂ =>
      rw [hupd] at h
      injection h with h1 h2
      subst h1
      subst h2
      rw [inMemUpdate_eq] at hupd
      cases hg : assocGet s.notes pid with
      | none => simp [hg] at hupd
      | some x =>
          simp [hg] at hupd
          subst hupd
          constructor
          · intro k hk
            exact assocGet_assocPut_ne _ _ _ _ hk
          · intro _
            exact assocGet_assocPut_self ..

/-- C10 witness: a body claiming id "other" sent to PUT /api/notes/n1
updates only "n1" — the record at "other" is untouched and "n1" now holds
the body with its id forced to "n1". -/
theorem c10_update_handler_path_id_witness :
    assocGet (⟨assocPut [("n1", noteA), ("other", noteOther)] "n1"
        { noteBodyOther with id := "n1" }⟩ : InMemoryStorage).notes "other" =
      assocGet [("n1", noteA), ("other", noteOther)] "other" ∧
    assocGet (⟨assocPut [("n1", noteA), ("other", noteOther)] "n1"
        { noteBodyOther with id := "n1" }⟩ : InMemoryStorage).notes "n1" =
      some { noteBodyOther with id := "n1" } :=
  ⟨(c10_update_handler_path_id ⟨[("n1", noteA), ("other", noteOther)]⟩ "n1" noteBodyOther
      ⟨200, some { noteBodyOther with id := "n1" }⟩ _ rfl).1 "other" (by decide),
   (c10_update_handler_path_id ⟨[("n1", noteA), ("other", noteOther)]⟩ "n1" noteBodyOther
      ⟨200, some { noteBodyOther with id := "n1" }⟩ _ rfl).2 rfl⟩
